import Mathlib

/-
  Verification development for the kansuji crate (src/lib.rs): parsing of
  Japanese numerals (kanji digits with place markers 千/百/十, magnitude
  markers 万/億/兆/京/垓 and fractional markers 分/厘/毛), the canonical
  renderer, and the numeric conversions.

  Naming: Lean 4 does not accept CJK characters in identifiers, so the
  Rust source's kanji names are romanized:
    KansujiField constructors 零 一 二 三 四 五 六 七 八 九
      become rei ichi ni san yon go roku nana hachi kyuu;
    KansujiKeta fields 千 百 十 一 become sen hyaku juu ichi;
    Kansuji fields 垓 京 兆 億 万 一 分 厘 毛 become
      gai kei chou oku man ichi bu rin mou.
  Machine integers are modelled as Nat; the `as usize` narrowing casts of
  the source are made explicit as `% 2 ^ 64` (64-bit target), and u128
  inputs are constrained by hypotheses `n < 2 ^ 128` where relevant.
  Rust's `u128` additions in the conversions cannot overflow (the total is
  bounded by 10 ^ 24), so they are modelled as plain Nat addition.
-/

/-- One decimal digit 0–9 (Rust enum `KansujiField` with kanji constructors). -/
inductive KansujiField where
  | rei
  | ichi
  | ni
  | san
  | yon
  | go
  | roku
  | nana
  | hachi
  | kyuu
deriving DecidableEq, Repr

/-- Rust `KansujiField::from_int`. The Rust function panics via
`unreachable!()` on `n ≥ 10`; the panic branch is modelled as `none`. -/
def KansujiField.from_int (n : Nat) : Option KansujiField :=
  match n with
  | 0 => some .rei
  | 1 => some .ichi
  | 2 => some .ni
  | 3 => some .san
  | 4 => some .yon
  | 5 => some .go
  | 6 => some .roku
  | 7 => some .nana
  | 8 => some .hachi
  | 9 => some .kyuu
  | _ => none

/-- Rust `KansujiField::to_int`. -/
def KansujiField.to_int : KansujiField → Nat
  | .rei => 0
  | .ichi => 1
  | .ni => 2
  | .san => 3
  | .yon => 4
  | .go => 5
  | .roku => 6
  | .nana => 7
  | .hachi => 8
  | .kyuu => 9

/-- Rust `KansujiField::to_str`: the glyph of a digit, where both 零 and 一
render as the empty string (elision is decided by the caller). -/
def KansujiField.to_str : KansujiField → String
  | .rei => ""
  | .ichi => ""
  | .ni => "二"
  | .san => "三"
  | .yon => "四"
  | .go => "五"
  | .roku => "六"
  | .nana => "七"
  | .hachi => "八"
  | .kyuu => "九"

/-- A four-digit group 0–9999 (Rust struct `KansujiKeta` with fields
千/百/十/一, romanized sen/hyaku/juu/ichi). -/
structure KansujiKeta where
  sen : KansujiField
  hyaku : KansujiField
  juu : KansujiField
  ichi : KansujiField
deriving DecidableEq, Repr

/-- Rust `KansujiKeta::is_zero`. -/
def KansujiKeta.is_zero (k : KansujiKeta) : Bool :=
  k.sen = KansujiField.rei ∧ k.hyaku = KansujiField.rei ∧
    k.juu = KansujiField.rei ∧ k.ichi = KansujiField.rei

/-- Rust `KansujiKeta::is_one`. -/
def KansujiKeta.is_one (k : KansujiKeta) : Bool :=
  k.sen = KansujiField.rei ∧ k.hyaku = KansujiField.rei ∧
    k.juu = KansujiField.rei ∧ k.ichi = KansujiField.ichi

/-- Rust `impl ToString for KansujiKeta`: each place digit followed by its
place marker when non-zero, then the bare units glyph. -/
def KansujiKeta.toString (k : KansujiKeta) : String :=
  (if k.sen ≠ KansujiField.rei then k.sen.to_str ++ "千" else "") ++
    (if k.hyaku ≠ KansujiField.rei then k.hyaku.to_str ++ "百" else "") ++
    (if k.juu ≠ KansujiField.rei then k.juu.to_str ++ "十" else "") ++
    k.ichi.to_str

/-- Rust `impl From<KansujiKeta> for usize`: place-value recomposition. -/
def KansujiKeta.toUsize (value : KansujiKeta) : Nat :=
  value.ichi.to_int + value.juu.to_int * 10 + value.hyaku.to_int * 100 +
    value.sen.to_int * 1000

/-- Rust `impl From<usize> for KansujiKeta`: reduce mod 10000 and split into
four decimal digits.  `none` would mean one of the `from_int` calls hit the
panic branch. -/
def KansujiKeta.fromUsize (value : Nat) : Option KansujiKeta :=
  let n := value % 10000
  let s := n / 1000
  let h := n % 1000 / 100
  let j := n % 100 / 10
  let i := n % 10
  match KansujiField.from_int s, KansujiField.from_int h,
      KansujiField.from_int j, KansujiField.from_int i with
  | some a, some b, some c, some d => some ⟨a, b, c, d⟩
  | _, _, _, _ => none

/-- Rust `impl Default for KansujiKeta`. -/
def KansujiKeta.default : KansujiKeta :=
  ⟨.rei, .rei, .rei, .rei⟩

/-- The full numeral value (Rust struct `Kansuji`): six four-digit groups
for 10^20, 10^16, 10^12, 10^8, 10^4, 10^0 plus three fractional digits. -/
structure Kansuji where
  gai : KansujiKeta
  kei : KansujiKeta
  chou : KansujiKeta
  oku : KansujiKeta
  man : KansujiKeta
  ichi : KansujiKeta
  bu : KansujiField
  rin : KansujiField
  mou : KansujiField
deriving DecidableEq, Repr

/-- Rust `impl Default for Kansuji`. -/
def Kansuji.default : Kansuji :=
  ⟨KansujiKeta.default, KansujiKeta.default, KansujiKeta.default,
    KansujiKeta.default, KansujiKeta.default, KansujiKeta.default,
    .rei, .rei, .rei⟩

/-- Rust enum `KansujiError`. -/
inductive KansujiError where
  | parseError
  | unexpectedChar (c : Char)
  | unexpectedEnd
  | tooLarge
deriving DecidableEq, Repr

/-- The loop of Rust `parse_keta`, with the loop-carried state made
explicit: `s h j i` are the committed place digits (Rust `sen`, `hyaku`,
`juu`, `iti`), `field` the pending digit, `keta` the current place ceiling
(starts at 4).  Returns the finished group together with the unconsumed
remainder of the input; magnitude markers 万/兆/京/垓 terminate the group
without being consumed (億 is absent from that arm in the source and thus
falls through to the `UnexpectedChar` arm). -/
def parse_ketaAux (s h j i field : Option KansujiField) (keta : Nat) :
    List Char → Except KansujiError (KansujiKeta × List Char)
  | [] =>
    if keta > 0 then
      .ok (⟨s.getD .rei, h.getD .rei, j.getD .rei, (field.getD .rei)⟩, [])
    else
      .ok (⟨s.getD .rei, h.getD .rei, j.getD .rei, i.getD .rei⟩, [])
  | c :: cs =>
    if keta > 0 then
      match c with
      | '一' => parse_ketaAux s h j i (some .ichi) keta cs
      | '二' => parse_ketaAux s h j i (some .ni) keta cs
      | '三' => parse_ketaAux s h j i (some .san) keta cs
      | '四' => parse_ketaAux s h j i (some .yon) keta cs
      | '五' => parse_ketaAux s h j i (some .go) keta cs
      | '六' => parse_ketaAux s h j i (some .roku) keta cs
      | '七' => parse_ketaAux s h j i (some .nana) keta cs
      | '八' => parse_ketaAux s h j i (some .hachi) keta cs
      | '九' => parse_ketaAux s h j i (some .kyuu) keta cs
      | '千' =>
        if keta > 3 then
          parse_ketaAux (some (field.getD .ichi)) h j i none 3 cs
        else
          .error (.unexpectedChar '千')
      | '百' =>
        if keta > 2 then
          parse_ketaAux s (some (field.getD .ichi)) j i none 2 cs
        else
          .error (.unexpectedChar '百')
      | '十' =>
        if keta > 1 then
          parse_ketaAux s h (some (field.getD .ichi)) i none 1 cs
        else
          .error (.unexpectedChar '十')
      | '万' | '兆' | '京' | '垓' =>
        .ok (⟨s.getD .rei, h.getD .rei, j.getD .rei, field.getD .rei⟩, c :: cs)
      | c => .error (.unexpectedChar c)
    else
      .ok (⟨s.getD .rei, h.getD .rei, j.getD .rei, i.getD .rei⟩, c :: cs)

/-- Rust `parse_keta`: run the group-parsing loop from the initial state
(no digits committed, pending digit empty, ceiling 4). -/
def parse_keta (cs : List Char) : Except KansujiError (KansujiKeta × List Char) :=
  parse_ketaAux none none none none none 4 cs

/-- The loop of Rust `parse_kansuji`, with the accumulator `kansuji` and
the current magnitude level `keta : i8` (starts at 6) explicit.  Each
iteration parses one group, then dispatches on the next unconsumed
character. -/
def parse_kansujiAux (kansuji : Kansuji) (keta : Int) (cs : List Char) :
    Except KansujiError Kansuji :=
  match parse_keta cs with
  | .error e => .error e
  | .ok (kansuji_keta, rest) =>
    match rest with
    | [] => .ok { kansuji with ichi := kansuji_keta }
    | c :: rest' =>
      match c with
      | '垓' =>
        if _h5 : keta > 5 then
          parse_kansujiAux { kansuji with gai := kansuji_keta } 5 rest'
        else
          .error (.unexpectedChar '垓')
      | '京' =>
        if _h4 : keta > 4 then
          parse_kansujiAux { kansuji with kei := kansuji_keta } 4 rest'
        else
          .error (.unexpectedChar '京')
      | '兆' =>
        if _h3 : keta > 3 then
          parse_kansujiAux { kansuji with chou := kansuji_keta } 3 rest'
        else
          .error (.unexpectedChar '兆')
      | '億' =>
        if _h2 : keta > 2 then
          parse_kansujiAux { kansuji with oku := kansuji_keta } 2 rest'
        else
          .error (.unexpectedChar '億')
      | '万' =>
        if _h1 : keta > 1 then
          parse_kansujiAux { kansuji with man := kansuji_keta } 1 rest'
        else
          .error (.unexpectedChar '万')
      | '分' =>
        if _hb : keta > -1 then
          if kansuji_keta.hyaku = KansujiField.rei ∧
              kansuji_keta.sen = KansujiField.rei ∧
              kansuji_keta.juu = KansujiField.rei then
            parse_kansujiAux { kansuji with bu := kansuji_keta.ichi } (-1) rest'
          else
            .error (.unexpectedChar '分')
        else
          .error (.unexpectedChar '分')
      | '厘' =>
        if _hr : keta > -2 then
          if kansuji_keta.hyaku = KansujiField.rei ∧
              kansuji_keta.sen = KansujiField.rei ∧
              kansuji_keta.juu = KansujiField.rei then
            parse_kansujiAux { kansuji with rin := kansuji_keta.ichi } (-2) rest'
          else
            .error (.unexpectedChar '厘')
        else
          .error (.unexpectedChar '厘')
      | '毛' =>
        if keta > -3 ∧ kansuji_keta.hyaku = KansujiField.rei ∧
            kansuji_keta.sen = KansujiField.rei ∧
            kansuji_keta.juu = KansujiField.rei then
          .ok { kansuji with mou := kansuji_keta.ichi }
        else
          .error (.unexpectedChar '毛')
      | _ =>
        if _h0 : keta > 0 then
          parse_kansujiAux { kansuji with ichi := kansuji_keta } 0 rest'
        else
          .ok kansuji
termination_by (keta + 2).toNat
decreasing_by all_goals omega

/-- Rust `parse_kansuji`: level starts at 6 (above 垓's level 5), the
accumulator all-zero. -/
def parse_kansuji (cs : List Char) : Except KansujiError Kansuji :=
  parse_kansujiAux Kansuji.default 6 cs

/-- Rust `impl From<Kansuji> for u128`: Σ group · 10^exponent. -/
def Kansuji.toU128 (value : Kansuji) : Nat :=
  value.ichi.toUsize + value.man.toUsize * 10000 +
    value.oku.toUsize * 100000000 +
    value.chou.toUsize * 1000000000000 +
    value.kei.toUsize * 10000000000000000 +
    value.gai.toUsize * 100000000000000000000

/-- Rust `impl From<u128> for Kansuji`: base-10^4 decomposition; the
`as usize` narrowing on each group is the explicit `% 2 ^ 64`. `none`
would mean a digit-conversion panic. -/
def Kansuji.fromU128 (value : Nat) : Option Kansuji :=
  let gai := value / 100000000000000000000
  let kei := value % 100000000000000000000 / 10000000000000000
  let tyou := value % 10000000000000000 / 1000000000000
  let oku := value % 1000000000000 / 100000000
  let man := value % 100000000 / 10000
  let iti := value % 10000
  match KansujiKeta.fromUsize (gai % 2 ^ 64), KansujiKeta.fromUsize (kei % 2 ^ 64),
      KansujiKeta.fromUsize (tyou % 2 ^ 64), KansujiKeta.fromUsize (oku % 2 ^ 64),
      KansujiKeta.fromUsize (man % 2 ^ 64), KansujiKeta.fromUsize (iti % 2 ^ 64) with
  | some a, some b, some c, some d, some e, some f =>
    some ⟨a, b, c, d, e, f, .rei, .rei, .rei⟩
  | _, _, _, _, _, _ => none

/-- Rust `impl ToString for Kansuji`: "零" for the all-zero value,
otherwise magnitude segments (each only when non-zero), the base group
(a lone 1 rendered literally as "一"), then fractional suffixes. -/
def Kansuji.toString (v : Kansuji) : String :=
  if v.gai.is_zero ∧ v.kei.is_zero ∧ v.chou.is_zero ∧ v.oku.is_zero ∧
      v.man.is_zero ∧ v.ichi.is_zero ∧ v.bu = KansujiField.rei ∧
      v.rin = KansujiField.rei ∧ v.mou = KansujiField.rei then
    "零"
  else
    (if ¬v.gai.is_zero then v.gai.toString ++ "垓" else "") ++
      (if ¬v.kei.is_zero then v.kei.toString ++ "京" else "") ++
      (if ¬v.chou.is_zero then v.chou.toString ++ "兆" else "") ++
      (if ¬v.oku.is_zero then v.oku.toString ++ "億" else "") ++
      (if ¬v.man.is_zero then v.man.toString ++ "万" else "") ++
      (if v.ichi.is_one then "一" else v.ichi.toString) ++
      (if v.bu ≠ KansujiField.rei then v.bu.to_str ++ "分" else "") ++
      (if v.rin ≠ KansujiField.rei then v.rin.to_str ++ "厘" else "") ++
      (if v.mou ≠ KansujiField.rei then v.mou.to_str ++ "毛" else "")

/-- A digit value below 10 survives the `from_int`/`to_int` round trip;
this is exactly the statement that `from_int`'s panic arm is dead for
in-range digits. -/
theorem KansujiField.from_int_to_int (d : Nat) (h : d < 10) :
    ∃ f, KansujiField.from_int d = some f ∧ f.to_int = d := by
  interval_cases d <;> exact ⟨_, rfl, rfl⟩

/-- `KansujiKeta.fromUsize` never hits the panic branch and recomposes to
its argument mod 10000. -/
theorem KansujiKeta.fromUsize_spec (n : Nat) :
    ∃ k, KansujiKeta.fromUsize n = some k ∧ k.toUsize = n % 10000 := by
  obtain ⟨a, ea, ta⟩ := KansujiField.from_int_to_int (n % 10000 / 1000) (by omega)
  obtain ⟨b, eb, tb⟩ := KansujiField.from_int_to_int (n % 10000 % 1000 / 100) (by omega)
  obtain ⟨c, ec, tc⟩ := KansujiField.from_int_to_int (n % 10000 % 100 / 10) (by omega)
  obtain ⟨d, ed, td⟩ := KansujiField.from_int_to_int (n % 10000 % 10) (by omega)
  refine ⟨⟨a, b, c, d⟩, ?_, ?_⟩
  · simp [KansujiKeta.fromUsize, ea, eb, ec, ed]
  · simp [KansujiKeta.toUsize, ta, tb, tc, td]
    omega

/-- C10: `KansujiKeta::from(n: usize)` is total and panic-free for every
`n`: each extracted digit is below 10, so `KansujiField::from_int`'s
`unreachable!()` branch is never taken, and
`usize::from(KansujiKeta::from(n)) == n % 10000`. -/
theorem fromUsize_total_roundtrip (n : Nat) :
    ∃ k, KansujiKeta.fromUsize n = some k ∧ k.toUsize = n % 10000 :=
  KansujiKeta.fromUsize_spec n

/-- C4: for `n < 10^24`, `u128::from(Kansuji::from(n)) == n`. -/
theorem toU128_fromU128_of_lt (n : Nat) (hn : n < 10 ^ 24) :
    ∃ k, Kansuji.fromU128 n = some k ∧ k.toU128 = n := by
  obtain ⟨k1, e1, t1⟩ :=
    KansujiKeta.fromUsize_spec (n / 100000000000000000000 % 2 ^ 64)
  obtain ⟨k2, e2, t2⟩ :=
    KansujiKeta.fromUsize_spec (n % 100000000000000000000 / 10000000000000000 % 2 ^ 64)
  obtain ⟨k3, e3, t3⟩ :=
    KansujiKeta.fromUsize_spec (n % 10000000000000000 / 1000000000000 % 2 ^ 64)
  obtain ⟨k4, e4, t4⟩ :=
    KansujiKeta.fromUsize_spec (n % 1000000000000 / 100000000 % 2 ^ 64)
  obtain ⟨k5, e5, t5⟩ :=
    KansujiKeta.fromUsize_spec (n % 100000000 / 10000 % 2 ^ 64)
  obtain ⟨k6, e6, t6⟩ :=
    KansujiKeta.fromUsize_spec (n % 10000 % 2 ^ 64)
  refine ⟨⟨k1, k2, k3, k4, k5, k6, .rei, .rei, .rei⟩, ?_, ?_⟩
  · simp only [Kansuji.fromU128, e1, e2, e3, e4, e5, e6]
  · simp [Kansuji.toU128, t1, t2, t3, t4, t5, t6]
    omega

/-- Witness for C4 at the concrete input 987654321987654321987654. -/
theorem toU128_fromU128_of_lt_witness :
    (987654321987654321987654 : Nat) < 10 ^ 24 ∧
      ∃ k, Kansuji.fromU128 987654321987654321987654 = some k ∧
        k.toU128 = 987654321987654321987654 :=
  ⟨by norm_num, toU128_fromU128_of_lt 987654321987654321987654 (by norm_num)⟩

/-- C9: for every u128 value `n` (also above the 10^24 ceiling),
`u128::from(Kansuji::from(n)) == n % 10^24`: the top (垓) group is
silently truncated mod 10000 and no `TooLarge` error is signalled. -/
theorem toU128_fromU128_mod (n : Nat) (hn : n < 2 ^ 128) :
    ∃ k, Kansuji.fromU128 n = some k ∧ k.toU128 = n % 10 ^ 24 := by
  obtain ⟨k1, e1, t1⟩ :=
    KansujiKeta.fromUsize_spec (n / 100000000000000000000 % 2 ^ 64)
  obtain ⟨k2, e2, t2⟩ :=
    KansujiKeta.fromUsize_spec (n % 100000000000000000000 / 10000000000000000 % 2 ^ 64)
  obtain ⟨k3, e3, t3⟩ :=
    KansujiKeta.fromUsize_spec (n % 10000000000000000 / 1000000000000 % 2 ^ 64)
  obtain ⟨k4, e4, t4⟩ :=
    KansujiKeta.fromUsize_spec (n % 1000000000000 / 100000000 % 2 ^ 64)
  obtain ⟨k5, e5, t5⟩ :=
    KansujiKeta.fromUsize_spec (n % 100000000 / 10000 % 2 ^ 64)
  obtain ⟨k6, e6, t6⟩ :=
    KansujiKeta.fromUsize_spec (n % 10000 % 2 ^ 64)
  refine ⟨⟨k1, k2, k3, k4, k5, k6, .rei, .rei, .rei⟩, ?_, ?_⟩
  · simp only [Kansuji.fromU128, e1, e2, e3, e4, e5, e6]
  · simp [Kansuji.toU128, t1, t2, t3, t4, t5, t6]
    omega

/-- Witness for C9 at the concrete input 10^24 + 7, above the ceiling. -/
theorem toU128_fromU128_mod_witness :
    (10 ^ 24 + 7 : Nat) < 2 ^ 128 ∧
      ∃ k, Kansuji.fromU128 (10 ^ 24 + 7) = some k ∧
        k.toU128 = (10 ^ 24 + 7) % 10 ^ 24 :=
  ⟨by norm_num, toU128_fromU128_mod (10 ^ 24 + 7) (by norm_num)⟩

/-- C1: the render→parse round trip claimed for all `n < 10^24` fails on
the code: `Kansuji::from(0)` renders as "零" and `Kansuji::from(10^8)`
renders as "億", but `parse_kansuji` has no arm accepting 零 (and
`parse_keta`'s group-terminator arm omits 億), so parsing either string
fails with `UnexpectedChar` instead of returning the original value. -/
theorem parse_toString_roundtrip_fails :
    Kansuji.fromU128 0 = some Kansuji.default ∧
    Kansuji.default.toString = "零" ∧
    parse_kansuji "零".data = .error (.unexpectedChar '零') ∧
    (Kansuji.fromU128 100000000).map Kansuji.toString = some "億" ∧
    parse_kansuji "億".data = .error (.unexpectedChar '億') := by
  refine ⟨rfl, rfl, ?_, rfl, ?_⟩ <;>
    simp [parse_kansuji, parse_kansujiAux, parse_keta, parse_ketaAux]

/-- C2: the group parser does not treat 億 as a terminating magnitude
marker (億 is missing from the `'万' | '兆' | '京' | '垓'` arm of
`parse_keta`), so "一億" fails with `UnexpectedChar('億')` instead of
parsing successfully. -/
theorem parse_ichioku_unexpectedChar :
    parse_kansuji "一億".data = .error (.unexpectedChar '億') := by
  simp [parse_kansuji, parse_kansujiAux, parse_keta, parse_ketaAux]

/-- C3: `parse_keta` has no arm for the fractional marker 分, so "三分"
fails with `UnexpectedChar('分')` inside the group parser; the fractional
arm of `parse_kansuji` is never reached. -/
theorem parse_sanbu_unexpectedChar :
    parse_kansuji "三分".data = .error (.unexpectedChar '分') := by
  simp [parse_kansuji, parse_kansujiAux, parse_keta, parse_ketaAux]

/-- C5: "二百五垓百万二十一" parses successfully into the 垓 group
{hundreds=二, units=五}, the 万 group {hundreds=一, committed from a bare
百 with implicit digit 一}, and the base group {tens=二, units=一}, with
every other group and fractional digit zero. -/
theorem parse_nihyakugogai_example :
    parse_kansuji "二百五垓百万二十一".data =
      .ok ⟨⟨.rei, .ni, .rei, .go⟩, KansujiKeta.default, KansujiKeta.default,
        KansujiKeta.default, ⟨.rei, .ichi, .rei, .rei⟩,
        ⟨.rei, .rei, .ni, .ichi⟩, .rei, .rei, .rei⟩ := by
  simp [parse_kansuji, parse_kansujiAux, parse_keta, parse_ketaAux,
    Kansuji.default, KansujiKeta.default]

/-- Counterexample to C6 as stated: in "十万十" the place marker 十 is
repeated after an earlier 十 (equal significance) was successfully
consumed, yet the parse succeeds (with the value 100010) because the
place-order ceiling resets for each group. -/
theorem place_marker_repeat_accepted :
    parse_kansuji "十万十".data =
      .ok ⟨KansujiKeta.default, KansujiKeta.default, KansujiKeta.default,
        KansujiKeta.default, ⟨.rei, .rei, .ichi, .rei⟩,
        ⟨.rei, .rei, .ichi, .rei⟩, .rei, .rei, .rei⟩ := by
  simp [parse_kansuji, parse_kansujiAux, parse_keta, parse_ketaAux,
    Kansuji.default, KansujiKeta.default]

/-- The place ceiling `parse_keta` assigns to each place marker:
十 ↦ 1, 百 ↦ 2, 千 ↦ 3. -/
def placeLevel : Char → Nat
  | '十' => 1
  | '百' => 2
  | '千' => 3
  | _ => 0

/-- The magnitude level `parse_kansuji` assigns to each magnitude marker:
万 ↦ 1, 億 ↦ 2, 兆 ↦ 3, 京 ↦ 4, 垓 ↦ 5. -/
def magLevel : Char → Int
  | '万' => 1
  | '億' => 2
  | '兆' => 3
  | '京' => 4
  | '垓' => 5
  | _ => 0

/-- C6 (amended): the descending-order discipline is per scope, not
global.  Within one group, a place marker at or above the previously
consumed place marker's level fails with `UnexpectedChar` carrying that
marker (in particular "十百…" fails at 百); across groups, a magnitude
marker at or above the previously consumed magnitude marker's level fails
with `UnexpectedChar` carrying that marker.  Place markers in different
groups may repeat (see the counterexample "十万十"). -/
theorem marker_order_amended :
    (∀ p₁ p₂ : Char, ∀ rest : List Char, p₁ ∈ ['十', '百', '千'] →
        p₂ ∈ ['十', '百', '千'] → placeLevel p₁ ≤ placeLevel p₂ →
        parse_kansuji (p₁ :: p₂ :: rest) = .error (.unexpectedChar p₂)) ∧
    (∀ m₁ m₂ : Char, ∀ rest : List Char, m₁ ∈ ['万', '兆', '京', '垓'] →
        m₂ ∈ ['万', '億', '兆', '京', '垓'] → magLevel m₁ ≤ magLevel m₂ →
        parse_kansuji ('一' :: m₁ :: '一' :: m₂ :: rest) =
          .error (.unexpectedChar m₂)) := by
  constructor
  · intro p₁ p₂ rest h1 h2 hle
    fin_cases h1 <;> fin_cases h2 <;>
      first
        | exact absurd hle (by decide)
        | simp [parse_kansuji, parse_kansujiAux, parse_keta, parse_ketaAux]
  · intro m₁ m₂ rest h1 h2 hle
    fin_cases h1 <;> fin_cases h2 <;>
      first
        | exact absurd hle (by decide)
        | simp [parse_kansuji, parse_kansujiAux, parse_keta, parse_ketaAux]

/-- Witness for the amended C6: "十百一" fails at 百, and "一万一万"
fails at the repeated 万. -/
theorem marker_order_amended_witness :
    parse_kansuji ('十' :: '百' :: ['一']) = .error (.unexpectedChar '百') ∧
    parse_kansuji ('一' :: '万' :: '一' :: '万' :: []) =
      .error (.unexpectedChar '万') :=
  ⟨marker_order_amended.1 '十' '百' ['一'] (by decide) (by decide) (by decide),
    marker_order_amended.2 '万' '万' [] (by decide) (by decide) (by decide)⟩

/-- Discriminator: did the parse return the `UnexpectedEnd` error? -/
def isUnexpectedEnd : Except KansujiError Kansuji → Bool
  | .error .unexpectedEnd => true
  | _ => false

/-- The group-parsing loop only ever fails with `UnexpectedChar`. -/
theorem parse_ketaAux_ne_unexpectedEnd (cs : List Char) :
    ∀ s h j i field keta, ¬ parse_ketaAux s h j i field keta cs =
      .error KansujiError.unexpectedEnd := by
  induction cs with
  | nil =>
    intro s h j i field keta hEq
    simp only [parse_ketaAux] at hEq
    split at hEq <;> simp at hEq
  | cons c cs ih =>
    intro s h j i field keta hEq
    simp only [parse_ketaAux] at hEq
    repeat' split at hEq
    all_goals first | exact ih _ _ _ _ _ _ hEq | simp at hEq

/-- The magnitude-parsing loop only ever fails with `UnexpectedChar`;
`m` bounds the termination measure of the loop. -/
theorem parse_kansujiAux_ne_unexpectedEnd (m : Nat) :
    ∀ (kansuji : Kansuji) (keta : Int) (cs : List Char), (keta + 2).toNat ≤ m →
      ¬ parse_kansujiAux kansuji keta cs = .error KansujiError.unexpectedEnd := by
  induction m with
  | zero =>
    intro kansuji keta cs hm hEq
    rw [parse_kansujiAux] at hEq
    repeat' split at hEq
    all_goals first
      | omega
      | (simp at hEq; done)
      | (injection hEq with h2; subst h2;
          exact parse_ketaAux_ne_unexpectedEnd _ _ _ _ _ _ _ ‹_›)
  | succ m ih =>
    intro kansuji keta cs hm hEq
    rw [parse_kansujiAux] at hEq
    repeat' split at hEq
    all_goals first
      | exact ih _ _ _ (by omega) hEq
      | (simp at hEq; done)
      | (injection hEq with h2; subst h2;
          exact parse_ketaAux_ne_unexpectedEnd _ _ _ _ _ _ _ ‹_›)

/-- C7: parsing the empty string succeeds with the all-zero value, and the
parser never returns `UnexpectedEnd` on any input. -/
theorem parse_empty_and_never_unexpectedEnd :
    parse_kansuji [] = .ok Kansuji.default ∧
    ∀ cs : List Char, isUnexpectedEnd (parse_kansuji cs) = false := by
  constructor
  · simp [parse_kansuji, parse_kansujiAux, parse_keta, parse_ketaAux,
      Kansuji.default, KansujiKeta.default]
  · intro cs
    cases hr : parse_kansuji cs with
    | ok k => simp [isUnexpectedEnd]
    | error e =>
      cases e with
      | parseError => simp [isUnexpectedEnd]
      | unexpectedChar c => simp [isUnexpectedEnd]
      | tooLarge => simp [isUnexpectedEnd]
      | unexpectedEnd =>
        exact absurd hr (parse_kansujiAux_ne_unexpectedEnd 8 _ _ _ (by norm_num))
